import Mathlib

/-!
# MedMarket recipe/shop engine: a shallow embedding

A shallow embedding of the recipe-search and price-comparison engine of the
MedMarket bot (`src/services/recipe_service.py`, `src/services/shop_service.py`,
`src/config.py`), together with proofs of the specification's claims about it.

Python data is modelled as follows: strings are Lean `String`s and Python's
`str.lower`, `str.strip` and the substring test `a in b` are given explicit
executable models (`pyLower`, `pyStrip`, `isSubL`) that agree with CPython on
the character ranges the catalog uses (ASCII and Cyrillic); numbers are `Rat`
(all catalog numerals are decimal and exact); Python dicts that are only
iterated or looked up are association lists in insertion order, matching
CPython's insertion-ordered dicts; `list[:limit]` is `pyTake`, which keeps
Python's negative-slice semantics; `min(..., key=...)` is `pyMinBy`, which
keeps Python's first-minimum semantics; `list.sort(key=...)` is Mathlib's
`List.insertionSort` by `key a ≤ key b`, which computes exactly the stable
sort that Python guarantees.  `random.choice` is modelled by an explicit draw
index.  The only floating-point computation, the Haversine distance, is
modelled over the reals (`calculate_haversine_distance`), and the shop-ranking
pipeline that consumes it is stated over an arbitrary rational-valued distance
oracle so that it stays executable.
-/

set_option allowUnsafeReducibility true

attribute [local semireducible] Rat.add Rat.mul Rat.inv Rat.sub Rat.ofScientific

namespace MedMarket

/-! ## Python string primitives -/

/-- Python's `str.lower`, character by character, on the character ranges the
catalog uses: ASCII `A`–`Z` and Cyrillic `А`–`Я` (U+0410–U+042F) map down by
`0x20`, `Ё` (U+0401) maps to `ё` (U+0451); every other character is fixed. -/
def pyCharLower (c : Char) : Char :=
  if c.toNat ≥ 0x41 ∧ c.toNat ≤ 0x5A then Char.ofNat (c.toNat + 0x20)
  else if c.toNat ≥ 0x410 ∧ c.toNat ≤ 0x42F then Char.ofNat (c.toNat + 0x20)
  else if c.toNat = 0x401 then Char.ofNat 0x451
  else c

/-- `str.lower` on a string's character list. -/
def pyLower (s : List Char) : List Char := s.map pyCharLower

/-- `str.strip`: drop leading and trailing whitespace. -/
def pyStrip (s : List Char) : List Char :=
  ((s.dropWhile Char.isWhitespace).reverse.dropWhile Char.isWhitespace).reverse

/-- Whether `n` is a prefix of `h` (helper for the substring test). -/
def isPrefixHere : List Char → List Char → Bool
  | [], _ => true
  | _ :: _, [] => false
  | c :: cs, d :: ds => c == d && isPrefixHere cs ds

/-- Python's substring test `n in h`: true iff `n` occurs contiguously in `h`;
the empty string occurs in everything, exactly as in Python. -/
def isSubL (n : List Char) : List Char → Bool
  | [] => n.isEmpty
  | d :: ds => isPrefixHere n (d :: ds) || isSubL n ds

/-- Python's `lst[:limit]`: a nonnegative limit takes a prefix, a negative
limit drops `-limit` elements from the end (clamped at the empty list). -/
def pyTake (limit : Int) (l : List α) : List α :=
  if 0 ≤ limit then l.take limit.toNat
  else l.take ((l.length : Int) + limit).toNat

/-! ## Data model (`config.py`, `services/recipe_service.py`) -/

/-- The configuration knob of `config.Settings` that the engine reads:
`max_glycemic_index` (default 55). -/
structure Settings where
  max_glycemic_index : Rat
  deriving DecidableEq

/-- The module-level `settings = get_settings()` object with its default
`max_glycemic_index = 55`. -/
def settings : Settings := { max_glycemic_index := 55 }

/-- One entry of a recipe's `ingredients` list. -/
structure Ingredient where
  name : String
  amount : Rat
  unit : String
  deriving DecidableEq

/-- A recipe record, with every field of the `RECIPES_DATABASE` dictionaries. -/
structure Recipe where
  id : String
  name : String
  description : String
  calories : Rat
  proteins : Rat
  fats : Rat
  carbs : Rat
  glycemic_index : Rat
  purines : Rat
  cooking_time_min : Nat
  servings : Nat
  suitable_for_diabetes : Bool
  suitable_for_gout : Bool
  suitable_for_celiac : Bool
  category : String
  ingredients : List Ingredient
  instructions : List String
  deriving DecidableEq

/-! ## RecipeService (`services/recipe_service.py`) -/

/-- `RecipeService._filter_by_diagnosis`: walk the candidate list and skip
(`continue`) a recipe when an active flag's check fails — diabetes skips
`glycemic_index > settings.max_glycemic_index`, gout skips `purines > 100`,
celiac skips `not suitable_for_celiac`; otherwise keep the recipe. -/
def filter_by_diagnosis (s : Settings) (recipes : List Recipe)
    (has_diabetes has_gout has_celiac : Bool) : List Recipe :=
  match recipes with
  | [] => []
  | r :: rest =>
    if has_diabetes && decide (s.max_glycemic_index < r.glycemic_index) then
      filter_by_diagnosis s rest has_diabetes has_gout has_celiac
    else if has_gout && decide ((100 : Rat) < r.purines) then
      filter_by_diagnosis s rest has_diabetes has_gout has_celiac
    else if has_celiac && !r.suitable_for_celiac then
      filter_by_diagnosis s rest has_diabetes has_gout has_celiac
    else
      r :: filter_by_diagnosis s rest has_diabetes has_gout has_celiac

/-- The matching loop of `RecipeService.search_recipes`: a recipe is appended
when the normalized query occurs in its lowercased name (`continue`), else
when it occurs in some lowercased ingredient name (`break` on first hit). -/
def collect_matching (q : List Char) : List Recipe → List Recipe
  | [] => []
  | r :: rest =>
    if isSubL q (pyLower r.name.data) then r :: collect_matching q rest
    else if r.ingredients.any fun ing => isSubL q (pyLower ing.name.data) then
      r :: collect_matching q rest
    else collect_matching q rest

/-- `RecipeService.search_recipes`: normalize the query with
`query.lower().strip()`, collect the name/ingredient matches, filter them by
diagnosis, and return `filtered_recipes[:limit]`. -/
def search_recipes (s : Settings) (recipes_db : List Recipe) (query : String)
    (has_diabetes has_gout has_celiac : Bool) (limit : Int) : List Recipe :=
  let query_lower := pyStrip (pyLower query.data)
  let matching_recipes := collect_matching query_lower recipes_db
  let filtered_recipes :=
    filter_by_diagnosis s matching_recipes has_diabetes has_gout has_celiac
  pyTake limit filtered_recipes

/-- `RecipeService.get_all_recipes`: optionally filter by category (Python's
`if category:` treats `None` and the empty string alike as no filter), filter
by diagnosis, and truncate with `recipes[:limit]`. -/
def get_all_recipes (s : Settings) (recipes_db : List Recipe)
    (has_diabetes has_gout has_celiac : Bool) (category : Option String)
    (limit : Int) : List Recipe :=
  let recipes :=
    match category with
    | some cat =>
        if cat.isEmpty then recipes_db
        else recipes_db.filter fun r => r.category == cat
    | none => recipes_db
  pyTake limit (filter_by_diagnosis s recipes has_diabetes has_gout has_celiac)

/-- `RecipeService.get_recipes_by_category`: keep the recipes of the category,
then filter by diagnosis (no limit). -/
def get_recipes_by_category (s : Settings) (recipes_db : List Recipe)
    (category : String) (has_diabetes has_gout has_celiac : Bool) : List Recipe :=
  filter_by_diagnosis s (recipes_db.filter fun r => r.category == category)
    has_diabetes has_gout has_celiac

/-- `RecipeService.get_random_recipe`: `random.choice` over the filtered list
when it is nonempty, else `None`; the RNG draw is modelled by the explicit
index `pick`, reduced modulo the list length. -/
def get_random_recipe (s : Settings) (recipes_db : List Recipe)
    (has_diabetes has_gout has_celiac : Bool) (pick : Nat) : Option Recipe :=
  let filtered := filter_by_diagnosis s recipes_db has_diabetes has_gout has_celiac
  if filtered.isEmpty then none else filtered[pick % filtered.length]?

/-! ## ShopService (`services/shop_service.py`) -/

/-- A shop record of `MOCK_SHOPS`. -/
structure Shop where
  id : String
  name : String
  chain : String
  latitude : Rat
  longitude : Rat
  address : String
  rating : Rat
  working_hours : String
  has_delivery : Bool
  deriving DecidableEq

/-- `prices_db.get(shop_id, {})`: look a shop's table up in the price
association list, defaulting to the empty table. -/
def dict_get (prices_db : List (String × List (String × Rat))) (shop_id : String) :
    List (String × Rat) :=
  match prices_db.find? fun kv => kv.1 == shop_id with
  | some kv => kv.2
  | none => []

/-- The first loop of `ShopService._find_product_price`: return the price of
the first key whose lowercasing equals the lowercased product name. -/
def find_exact_price (product_lower : List Char) : List (String × Rat) → Option Rat
  | [] => none
  | (name, price) :: rest =>
    if pyLower name.data == product_lower then some price
    else find_exact_price product_lower rest

/-- The second loop of `ShopService._find_product_price`: return the price of
the first key that contains the product name or is contained in it,
case-insensitively. -/
def find_partial_price (product_lower : List Char) : List (String × Rat) → Option Rat
  | [] => none
  | (name, price) :: rest =>
    if isSubL product_lower (pyLower name.data) || isSubL (pyLower name.data) product_lower then
      some price
    else find_partial_price product_lower rest

/-- `ShopService._find_product_price`: exact case-insensitive match first,
then either-direction substring match, else `None`. -/
def find_product_price (shop_prices : List (String × Rat)) (product_name : String) :
    Option Rat :=
  let product_lower := pyLower product_name.data
  match find_exact_price product_lower shop_prices with
  | some price => some price
  | none => find_partial_price product_lower shop_prices

/-- One value of the dictionary `get_prices_for_recipe` builds per shop. -/
structure ShopPriceInfo where
  shop_name : String
  shop_address : String
  total_price : Rat
  found_items : Nat
  total_items : Nat
  items : List (String × Rat)
  rating : Rat
  deriving DecidableEq

/-- `ShopService.get_prices_for_recipe`: for every shop, price every
ingredient with `_find_product_price`, skipping the ingredients that price to
`None`, and record the sum, the found count and the per-item breakdown.  The
result is the association list `prices_by_shop` in shop-catalog order. -/
def get_prices_for_recipe (shops_db : List Shop)
    (prices_db : List (String × List (String × Rat)))
    (recipe_ingredients : List Ingredient) : List (String × ShopPriceInfo) :=
  shops_db.map fun shop =>
    let shop_prices := dict_get prices_db shop.id
    let items_prices := recipe_ingredients.filterMap fun ingredient =>
      (find_product_price shop_prices ingredient.name).map fun price =>
        (ingredient.name, price)
    (shop.id,
      { shop_name := shop.name
        shop_address := shop.address
        total_price := (items_prices.map fun it => it.2).sum
        found_items := items_prices.length
        total_items := recipe_ingredients.length
        items := items_prices
        rating := shop.rating })

/-- The sort key of `find_cheapest_shop_for_recipe`:
`x[1]["total_price"] if x[1]["total_price"] > 0 else float("inf")`. -/
def cheapest_key (p : String × ShopPriceInfo) : WithTop Rat :=
  if 0 < p.2.total_price then (p.2.total_price : WithTop Rat) else ⊤

/-- Python's `min(l, key=...)`: the first element attaining the minimal key
(`min` keeps the earlier element on ties); `none` on the empty list, where
Python raises. -/
def pyMinBy (key : α → WithTop Rat) : List α → Option α
  | [] => none
  | x :: xs =>
    match pyMinBy key xs with
    | none => some x
    | some m => if key x ≤ key m then some x else some m

/-- `ShopService.find_cheapest_shop_for_recipe`: `min` over `prices_by_shop`
with zero totals keyed as infinity (the `if not prices_by_shop: return None`
guard is the `none` of `pyMinBy` on the empty list). -/
def find_cheapest_shop_for_recipe (shops_db : List Shop)
    (prices_db : List (String × List (String × Rat)))
    (recipe_ingredients : List Ingredient) : Option (String × ShopPriceInfo) :=
  pyMinBy cheapest_key (get_prices_for_recipe shops_db prices_db recipe_ingredients)

/-- One result entry of `compare_prices`. -/
structure PriceEntry where
  shop_id : String
  shop_name : String
  shop_address : String
  price : Rat
  rating : Rat
  deriving DecidableEq

/-- `ShopService.compare_prices`: collect an entry for every shop whose table
prices the product, then `results.sort(key=lambda x: x["price"])` — Python's
stable sort, i.e. the stable insertion sort by `price ≤ price`. -/
def compare_prices (shops_db : List Shop)
    (prices_db : List (String × List (String × Rat)))
    (product_name : String) : List PriceEntry :=
  let results := shops_db.filterMap fun shop =>
    (find_product_price (dict_get prices_db shop.id) product_name).map fun price =>
      { shop_id := shop.id
        shop_name := shop.name
        shop_address := shop.address
        price := price
        rating := shop.rating }
  results.insertionSort fun a b => a.price ≤ b.price

/-- `ShopService.find_nearby_shops`, with the float Haversine call abstracted
into a rational-valued distance oracle `dist` and Python's `round(d, 2)` into
an arbitrary `round2` (neither affects the pipeline): keep the shops whose
unrounded distance is `≤ radius_km`, pair each with its rounded
`distance_km`, sort stably by `distance_km`, and truncate with `[:limit]`. -/
def find_nearby_shops (dist : Rat → Rat → Rat → Rat → Rat) (round2 : Rat → Rat)
    (shops_db : List Shop) (latitude longitude radius_km : Rat) (limit : Int) :
    List (Shop × Rat) :=
  let shops_with_distance := shops_db.filterMap fun shop =>
    let distance := dist latitude longitude shop.latitude shop.longitude
    if distance ≤ radius_km then some (shop, round2 distance) else none
  pyTake limit (shops_with_distance.insertionSort fun a b => a.2 ≤ b.2)

/-! ## The Haversine distance (`ShopService._calculate_haversine_distance`)

The one genuinely numeric computation; modelled exactly over the reals. -/

/-- `ShopService.EARTH_RADIUS_KM`. -/
def EARTH_RADIUS_KM : Real := 6371

/-- `math.radians`. -/
noncomputable def radians (x : Real) : Real := x * (Real.pi / 180)

/-- `math.atan2 y x`, i.e. the argument of the complex number `x + i*y`. -/
noncomputable def atan2 (y x : Real) : Real := Complex.arg ⟨x, y⟩

/-- The intermediate `a` of `_calculate_haversine_distance`:
`sin²(Δlat/2) + cos(lat1)·cos(lat2)·sin²(Δlon/2)` in radians. -/
noncomputable def haversine_a (lat1 lon1 lat2 lon2 : Real) : Real :=
  Real.sin (radians (lat2 - lat1) / 2) ^ 2 +
    Real.cos (radians lat1) * Real.cos (radians lat2) *
      Real.sin (radians (lon2 - lon1) / 2) ^ 2

/-- `ShopService._calculate_haversine_distance`:
`EARTH_RADIUS_KM * (2 * atan2(sqrt a, sqrt (1 - a)))`. -/
noncomputable def calculate_haversine_distance (lat1 lon1 lat2 lon2 : Real) : Real :=
  EARTH_RADIUS_KM *
    (2 * atan2 (Real.sqrt (haversine_a lat1 lon1 lat2 lon2))
      (Real.sqrt (1 - haversine_a lat1 lon1 lat2 lon2)))

/-! ## The embedded catalogs -/

/-- Recipe `r_001` of `RECIPES_DATABASE` (`services/recipe_service.py`). -/
def r_001 : Recipe :=
  { id := "r_001",
    name := "Курица с брокколи на пару",
    description := "Лёгкое диетическое блюдо, идеальное для диабетиков. Низкий гликемический индекс и умеренное содержание белка.",
    calories := 320, proteins := 42, fats := 9, carbs := 18,
    glycemic_index := 35, purines := 120,
    cooking_time_min := 25, servings := 2,
    suitable_for_diabetes := true, suitable_for_gout := false, suitable_for_celiac := true,
    category := "main",
    ingredients := [
      { name := "Куриное филе", amount := 300, unit := "г" },
      { name := "Брокколи", amount := 200, unit := "г" },
      { name := "Оливковое масло", amount := 10, unit := "мл" },
      { name := "Лимонный сок", amount := 15, unit := "мл" },
      { name := "Соль, перец", amount := 1, unit := "по вкусу" } ],
    instructions := [
      "Нарезать куриное филе на небольшие кусочки.",
      "Разделить брокколи на соцветия, промыть.",
      "Выложить курицу и брокколи в пароварку.",
      "Готовить на пару 20-25 минут до готовности.",
      "Полить оливковым маслом и лимонным соком.",
      "Посолить и поперчить по вкусу." ] }

/-- Recipe `r_002` of `RECIPES_DATABASE` (`services/recipe_service.py`). -/
def r_002 : Recipe :=
  { id := "r_002",
    name := "Салат Средиземноморский",
    description := "Классический овощной салат, богатый антиоксидантами. Подходит для всех диагнозов.",
    calories := 180, proteins := 5, fats := 12, carbs := 15,
    glycemic_index := 20, purines := 15,
    cooking_time_min := 15, servings := 2,
    suitable_for_diabetes := true, suitable_for_gout := true, suitable_for_celiac := true,
    category := "salad",
    ingredients := [
      { name := "Помидоры черри", amount := 150, unit := "г" },
      { name := "Огурец", amount := 1, unit := "шт" },
      { name := "Болгарский перец", amount := 1, unit := "шт" },
      { name := "Красный лук", amount := 50, unit := "г" },
      { name := "Маслины", amount := 50, unit := "г" },
      { name := "Оливковое масло Extra Virgin", amount := 30, unit := "мл" },
      { name := "Лимонный сок", amount := 15, unit := "мл" },
      { name := "Орегано сушёный", amount := 1, unit := "ч.л." } ],
    instructions := [
      "Нарезать помидоры пополам.",
      "Огурец нарезать полукольцами.",
      "Перец нарезать кубиками.",
      "Лук нарезать тонкими полукольцами.",
      "Смешать все овощи в салатнике.",
      "Добавить маслины.",
      "Заправить оливковым маслом и лимонным соком.",
      "Посыпать орегано, посолить по вкусу." ] }

/-- Recipe `r_003` of `RECIPES_DATABASE` (`services/recipe_service.py`). -/
def r_003 : Recipe :=
  { id := "r_003",
    name := "Гречневая каша с овощами",
    description := "Питательное блюдо с низким ГИ, богатое клетчаткой. Идеально для завтрака или гарнира.",
    calories := 250, proteins := 9, fats := 6, carbs := 42,
    glycemic_index := 40, purines := 25,
    cooking_time_min := 30, servings := 2,
    suitable_for_diabetes := true, suitable_for_gout := true, suitable_for_celiac := true,
    category := "main",
    ingredients := [
      { name := "Гречневая крупа", amount := 150, unit := "г" },
      { name := "Морковь", amount := 1, unit := "шт" },
      { name := "Лук репчатый", amount := 1, unit := "шт" },
      { name := "Кабачок", amount := 150, unit := "г" },
      { name := "Оливковое масло", amount := 15, unit := "мл" },
      { name := "Вода", amount := 300, unit := "мл" } ],
    instructions := [
      "Промыть гречку под холодной водой.",
      "Нарезать овощи мелкими кубиками.",
      "Обжарить лук и морковь на оливковом масле 5 минут.",
      "Добавить кабачок, тушить ещё 3 минуты.",
      "Добавить гречку и воду.",
      "Довести до кипения, уменьшить огонь.",
      "Варить 20 минут до готовности гречки.",
      "Посолить по вкусу." ] }

/-- Recipe `r_004` of `RECIPES_DATABASE` (`services/recipe_service.py`). -/
def r_004 : Recipe :=
  { id := "r_004",
    name := "Запечённая рыба с травами",
    description := "Белая рыба, запечённая с ароматными травами. Отличный источник омега-3 жирных кислот.",
    calories := 280, proteins := 38, fats := 12, carbs := 2,
    glycemic_index := 0, purines := 80,
    cooking_time_min := 35, servings := 2,
    suitable_for_diabetes := true, suitable_for_gout := true, suitable_for_celiac := true,
    category := "main",
    ingredients := [
      { name := "Треска (филе)", amount := 400, unit := "г" },
      { name := "Лимон", amount := 1, unit := "шт" },
      { name := "Чеснок", amount := 2, unit := "зубчика" },
      { name := "Розмарин свежий", amount := 2, unit := "веточки" },
      { name := "Тимьян свежий", amount := 3, unit := "веточки" },
      { name := "Оливковое масло", amount := 20, unit := "мл" } ],
    instructions := [
      "Разогреть духовку до 180°C.",
      "Выложить рыбу на фольгу.",
      "Полить оливковым маслом и лимонным соком.",
      "Посыпать мелко нарезанным чесноком.",
      "Положить сверху веточки трав.",
      "Завернуть фольгу, оставив небольшое отверстие.",
      "Запекать 25-30 минут.",
      "Подавать с дольками лимона." ] }

/-- Recipe `r_005` of `RECIPES_DATABASE` (`services/recipe_service.py`). -/
def r_005 : Recipe :=
  { id := "r_005",
    name := "Овсянка с ягодами и орехами",
    description := "Полезный завтрак с низким ГИ, богатый клетчаткой и антиоксидантами.",
    calories := 350, proteins := 12, fats := 14, carbs := 48,
    glycemic_index := 45, purines := 20,
    cooking_time_min := 15, servings := 1,
    suitable_for_diabetes := true, suitable_for_gout := true, suitable_for_celiac := false,
    category := "breakfast",
    ingredients := [
      { name := "Овсяные хлопья (долгой варки)", amount := 50, unit := "г" },
      { name := "Вода или молоко", amount := 200, unit := "мл" },
      { name := "Черника", amount := 50, unit := "г" },
      { name := "Малина", amount := 50, unit := "г" },
      { name := "Грецкие орехи", amount := 20, unit := "г" },
      { name := "Мёд (опционально)", amount := 5, unit := "мл" } ],
    instructions := [
      "Залить овсянку водой или молоком.",
      "Варить на среднем огне 10-12 минут, помешивая.",
      "Переложить в тарелку.",
      "Добавить свежие ягоды.",
      "Посыпать измельчёнными орехами.",
      "По желанию добавить немного мёда." ] }

/-- Recipe `r_006` of `RECIPES_DATABASE` (`services/recipe_service.py`). -/
def r_006 : Recipe :=
  { id := "r_006",
    name := "Творожная запеканка без сахара",
    description := "Нежная запеканка из творога без добавления сахара. Отличный десерт для диабетиков.",
    calories := 180, proteins := 18, fats := 5, carbs := 15,
    glycemic_index := 30, purines := 10,
    cooking_time_min := 45, servings := 4,
    suitable_for_diabetes := true, suitable_for_gout := true, suitable_for_celiac := false,
    category := "dessert",
    ingredients := [
      { name := "Творог 5%", amount := 500, unit := "г" },
      { name := "Яйцо", amount := 2, unit := "шт" },
      { name := "Мука рисовая", amount := 30, unit := "г" },
      { name := "Стевия", amount := 1, unit := "ч.л." },
      { name := "Ванилин", amount := 1, unit := "щепотка" } ],
    instructions := [
      "Разогреть духовку до 170°C.",
      "Смешать творог с яйцами.",
      "Добавить муку, стевию и ванилин.",
      "Тщательно перемешать до однородности.",
      "Выложить в смазанную форму.",
      "Запекать 35-40 минут до золотистой корочки.",
      "Остудить перед подачей." ] }

/-- Recipe `r_007` of `RECIPES_DATABASE` (`services/recipe_service.py`). -/
def r_007 : Recipe :=
  { id := "r_007",
    name := "Суп-пюре из тыквы",
    description := "Кремовый тыквенный суп с имбирём. Низкокалорийный и согревающий.",
    calories := 120, proteins := 3, fats := 4, carbs := 18,
    glycemic_index := 65, purines := 10,
    cooking_time_min := 40, servings := 4,
    suitable_for_diabetes := true, suitable_for_gout := true, suitable_for_celiac := true,
    category := "soup",
    ingredients := [
      { name := "Тыква", amount := 500, unit := "г" },
      { name := "Лук репчатый", amount := 1, unit := "шт" },
      { name := "Имбирь свежий", amount := 10, unit := "г" },
      { name := "Овощной бульон", amount := 500, unit := "мл" },
      { name := "Оливковое масло", amount := 15, unit := "мл" },
      { name := "Тыквенные семечки", amount := 20, unit := "г" } ],
    instructions := [
      "Нарезать тыкву кубиками, лук мелко.",
      "Обжарить лук на оливковом масле 3 минуты.",
      "Добавить тыкву и тёртый имбирь.",
      "Залить бульоном и варить 25-30 минут.",
      "Пюрировать блендером до однородности.",
      "Подавать с тыквенными семечками." ] }

/-- Recipe `r_008` of `RECIPES_DATABASE` (`services/recipe_service.py`). -/
def r_008 : Recipe :=
  { id := "r_008",
    name := "Киноа с овощами",
    description := "Питательный гарнир из киноа с разноцветными овощами. Отличный источник растительного белка.",
    calories := 280, proteins := 10, fats := 8, carbs := 42,
    glycemic_index := 35, purines := 20,
    cooking_time_min := 25, servings := 2,
    suitable_for_diabetes := true, suitable_for_gout := true, suitable_for_celiac := true,
    category := "main",
    ingredients := [
      { name := "Киноа", amount := 150, unit := "г" },
      { name := "Болгарский перец", amount := 1, unit := "шт" },
      { name := "Помидоры", amount := 150, unit := "г" },
      { name := "Огурец", amount := 1, unit := "шт" },
      { name := "Петрушка", amount := 30, unit := "г" },
      { name := "Лимонный сок", amount := 30, unit := "мл" },
      { name := "Оливковое масло", amount := 20, unit := "мл" } ],
    instructions := [
      "Промыть киноа и отварить по инструкции.",
      "Остудить киноа.",
      "Нарезать все овощи мелкими кубиками.",
      "Мелко нарезать петрушку.",
      "Смешать киноа с овощами.",
      "Заправить лимонным соком и оливковым маслом.",
      "Посолить по вкусу." ] }

/-- Recipe `r_009` of `RECIPES_DATABASE` (`services/recipe_service.py`). -/
def r_009 : Recipe :=
  { id := "r_009",
    name := "Омлет с зеленью и сыром",
    description := "Белковый завтрак с минимальным содержанием углеводов. Быстрое и питательное блюдо.",
    calories := 250, proteins := 18, fats := 18, carbs := 3,
    glycemic_index := 0, purines := 15,
    cooking_time_min := 10, servings := 1,
    suitable_for_diabetes := true, suitable_for_gout := true, suitable_for_celiac := true,
    category := "breakfast",
    ingredients := [
      { name := "Яйца", amount := 2, unit := "шт" },
      { name := "Молоко", amount := 30, unit := "мл" },
      { name := "Сыр твёрдый", amount := 30, unit := "г" },
      { name := "Шпинат", amount := 30, unit := "г" },
      { name := "Укроп", amount := 10, unit := "г" },
      { name := "Оливковое масло", amount := 5, unit := "мл" } ],
    instructions := [
      "Взбить яйца с молоком.",
      "Натереть сыр на тёрке.",
      "Мелко нарезать зелень.",
      "Разогреть масло на сковороде.",
      "Вылить яичную смесь.",
      "Добавить шпинат и зелень.",
      "Посыпать сыром.",
      "Готовить под крышкой 5-7 минут." ] }

/-- Recipe `r_010` of `RECIPES_DATABASE` (`services/recipe_service.py`). -/
def r_010 : Recipe :=
  { id := "r_010",
    name := "Фасолевый салат с тунцом",
    description := "Сытный салат с высоким содержанием белка. Отличный вариант для обеда.",
    calories := 320, proteins := 28, fats := 12, carbs := 25,
    glycemic_index := 25, purines := 150,
    cooking_time_min := 15, servings := 2,
    suitable_for_diabetes := true, suitable_for_gout := false, suitable_for_celiac := true,
    category := "salad",
    ingredients := [
      { name := "Тунец консервированный", amount := 150, unit := "г" },
      { name := "Фасоль белая (отварная)", amount := 200, unit := "г" },
      { name := "Красный лук", amount := 50, unit := "г" },
      { name := "Помидоры черри", amount := 100, unit := "г" },
      { name := "Петрушка", amount := 20, unit := "г" },
      { name := "Оливковое масло", amount := 20, unit := "мл" },
      { name := "Лимонный сок", amount := 15, unit := "мл" } ],
    instructions := [
      "Слить жидкость из тунца, размять вилкой.",
      "Нарезать лук тонкими полукольцами.",
      "Помидоры нарезать пополам.",
      "Мелко нарезать петрушку.",
      "Смешать фасоль, тунец, лук, помидоры.",
      "Добавить петрушку.",
      "Заправить маслом и лимонным соком.",
      "Посолить и поперчить по вкусу." ] }

/-- The recipe catalog `RECIPES_DATABASE` of `services/recipe_service.py`. -/
def RECIPES_DATABASE : List Recipe :=
  [r_001, r_002, r_003, r_004, r_005, r_006, r_007, r_008, r_009, r_010]

/-- The shop catalog `MOCK_SHOPS` of `services/shop_service.py`. -/
def MOCK_SHOPS : List Shop := [
  { id := "shop_001", name := "Пятёрочка", chain := "X5 Retail Group",
    latitude := 55.7558, longitude := 37.6173,
    address := "Москва, Красная площадь, 1", rating := 4.7,
    working_hours := "08:00-23:00", has_delivery := true },
  { id := "shop_002", name := "Магнит", chain := "Магнит",
    latitude := 55.75, longitude := 37.62,
    address := "Москва, ул. Тверская, 15", rating := 4.5,
    working_hours := "07:00-23:00", has_delivery := true },
  { id := "shop_003", name := "Дикси", chain := "Дикси",
    latitude := 55.76, longitude := 37.61,
    address := "Москва, Охотный ряд, 2", rating := 4.3,
    working_hours := "06:00-23:00", has_delivery := false },
  { id := "shop_004", name := "ВкусВилл", chain := "ВкусВилл",
    latitude := 55.752, longitude := 37.615,
    address := "Москва, ул. Никольская, 10", rating := 4.8,
    working_hours := "08:00-22:00", has_delivery := true },
  { id := "shop_005", name := "Перекрёсток", chain := "X5 Retail Group",
    latitude := 55.758, longitude := 37.622,
    address := "Москва, ул. Петровка, 5", rating := 4.6,
    working_hours := "07:00-24:00", has_delivery := true } ]

/-- The price table `MOCK_PRICES` of `services/shop_service.py`: an association
list in insertion order, modelling the Python dict of dicts. -/
def MOCK_PRICES : List (String × List (String × Rat)) := [
  ("shop_001", [
    ("Куриное филе", 289),
    ("Брокколи", 149),
    ("Гречневая крупа", 89),
    ("Оливковое масло", 549),
    ("Творог 5%", 89),
    ("Яйца (10 шт)", 99),
    ("Овсяные хлопья", 79),
    ("Треска (филе)", 449),
    ("Помидоры черри", 199),
    ("Киноа", 299) ]),
  ("shop_002", [
    ("Куриное филе", 279),
    ("Брокколи", 159),
    ("Гречневая крупа", 79),
    ("Оливковое масло", 529),
    ("Творог 5%", 79),
    ("Яйца (10 шт)", 89),
    ("Овсяные хлопья", 69),
    ("Треска (филе)", 429),
    ("Помидоры черри", 189),
    ("Киноа", 319) ]),
  ("shop_003", [
    ("Куриное филе", 299),
    ("Брокколи", 139),
    ("Гречневая крупа", 85),
    ("Оливковое масло", 569),
    ("Творог 5%", 85),
    ("Яйца (10 шт)", 95),
    ("Овсяные хлопья", 75),
    ("Треска (филе)", 459),
    ("Помидоры черри", 179),
    ("Киноа", 289) ]),
  ("shop_004", [
    ("Куриное филе", 329),
    ("Брокколи", 169),
    ("Гречневая крупа", 99),
    ("Оливковое масло", 599),
    ("Творог 5%", 99),
    ("Яйца (10 шт)", 129),
    ("Овсяные хлопья", 89),
    ("Треска (филе)", 499),
    ("Помидоры черри", 229),
    ("Киноа", 349) ]),
  ("shop_005", [
    ("Куриное филе", 309),
    ("Брокколи", 159),
    ("Гречневая крупа", 95),
    ("Оливковое масло", 579),
    ("Творог 5%", 95),
    ("Яйца (10 шт)", 109),
    ("Овсяные хлопья", 85),
    ("Треска (филе)", 479),
    ("Помидоры черри", 209),
    ("Киноа", 329) ]) ]

/-! ## Spec-level predicates and views used by the claims -/

/-- The keep/drop decision `_filter_by_diagnosis` makes for one recipe: kept
iff no active flag's check fails. -/
def keeps_diagnosis (s : Settings) (has_diabetes has_gout has_celiac : Bool)
    (r : Recipe) : Bool :=
  !(has_diabetes && decide (s.max_glycemic_index < r.glycemic_index)) &&
    (!(has_gout && decide ((100 : Rat) < r.purines)) &&
      !(has_celiac && !r.suitable_for_celiac))

/-- The match test of `search_recipes` for one recipe: the (normalized) query
occurs in the lowercased name or in some lowercased ingredient name. -/
def recipe_matches (q : List Char) (r : Recipe) : Bool :=
  isSubL q (pyLower r.name.data) ||
    r.ingredients.any fun ing => isSubL q (pyLower ing.name.data)

/-- The relation a stable sort by a rational key realizes: strictly smaller
key, or equal keys with the original relation preserved. -/
def stableKeyRel (key : α → Rat) (R : α → α → Prop) (a b : α) : Prop :=
  key a < key b ∨ (key a = key b ∧ R a b)

/-- A recipe with its `suitable_for_diabetes` and `suitable_for_gout` fields
erased: the view of a recipe that the filtering pipeline may depend on. -/
structure RecipeView where
  id : String
  name : String
  description : String
  calories : Rat
  proteins : Rat
  fats : Rat
  carbs : Rat
  glycemic_index : Rat
  purines : Rat
  cooking_time_min : Nat
  servings : Nat
  suitable_for_celiac : Bool
  category : String
  ingredients : List Ingredient
  instructions : List String
  deriving DecidableEq

/-- Forget a recipe's `suitable_for_diabetes` and `suitable_for_gout` flags. -/
def erase_suitability (r : Recipe) : RecipeView :=
  { id := r.id, name := r.name, description := r.description,
    calories := r.calories, proteins := r.proteins, fats := r.fats,
    carbs := r.carbs, glycemic_index := r.glycemic_index,
    purines := r.purines, cooking_time_min := r.cooking_time_min,
    servings := r.servings, suitable_for_celiac := r.suitable_for_celiac,
    category := r.category, ingredients := r.ingredients,
    instructions := r.instructions }

/-- `r_007` with its two unused suitability flags flipped (for the C10
witness): identical to `r_007` after `erase_suitability`. -/
def r_007_flipped : Recipe :=
  { r_007 with
      suitable_for_diabetes := false
      suitable_for_gout := false }

/-! ## The diagnosis filter as a predicate filter -/


theorem filter_by_diagnosis_eq_filter (s : Settings) (l : List Recipe)
    (d g c : Bool) :
    filter_by_diagnosis s l d g c = l.filter (keeps_diagnosis s d g c) := by
  induction l with
  | nil => rfl
  | cons r t ih =>
    by_cases h1 : (d && decide (s.max_glycemic_index < r.glycemic_index)) = true
    · simp [filter_by_diagnosis, keeps_diagnosis, h1, ih, List.filter_cons]
    · by_cases h2 : (g && decide ((100 : Rat) < r.purines)) = true
      · simp [filter_by_diagnosis, keeps_diagnosis, h1, h2, ih, List.filter_cons]
      · by_cases h3 : (c && !r.suitable_for_celiac) = true
        · simp [filter_by_diagnosis, keeps_diagnosis, h1, h2, h3, ih, List.filter_cons]
        · simp [filter_by_diagnosis, keeps_diagnosis, h1, h2, h3, ih, List.filter_cons]

theorem mem_filter_by_diagnosis {s : Settings} {l : List Recipe} {d g c : Bool}
    {r : Recipe} :
    r ∈ filter_by_diagnosis s l d g c ↔
      r ∈ l ∧ keeps_diagnosis s d g c r = true := by
  rw [filter_by_diagnosis_eq_filter, List.mem_filter]

theorem keeps_diagnosis_spec {s : Settings} {d g c : Bool} {r : Recipe}
    (h : keeps_diagnosis s d g c r = true) :
    (d = true → r.glycemic_index ≤ s.max_glycemic_index) ∧
      (g = true → r.purines ≤ 100) ∧
      (c = true → r.suitable_for_celiac = true) := by
  simp only [keeps_diagnosis, Bool.and_eq_true, Bool.not_eq_true',
    Bool.and_eq_false_iff, decide_eq_false_iff_not, not_lt,
    Bool.not_eq_false] at h
  refine ⟨fun hd => ?_, fun hg => ?_, fun hc => ?_⟩
  · rcases h.1 with h' | h' <;> simp_all
  · rcases h.2.1 with h' | h' <;> simp_all
  · rcases h.2.2 with h' | h' <;> simp_all

theorem keeps_diagnosis_of_flag_le {s : Settings} {r : Recipe}
    {d g c d' g' c' : Bool} (hd : d = true → d' = true) (hg : g = true → g' = true)
    (hc : c = true → c' = true) (h : keeps_diagnosis s d' g' c' r = true) :
    keeps_diagnosis s d g c r = true := by
  cases d <;> cases g <;> cases c <;>
    simp_all [keeps_diagnosis, Bool.and_eq_true, imp_false]

theorem pyTake_subset (limit : Int) (l : List α) : pyTake limit l ⊆ l := by
  unfold pyTake
  split <;> exact List.take_subset _ _

/-! ## The search matcher as a predicate filter -/


theorem collect_matching_eq_filter (q : List Char) (l : List Recipe) :
    collect_matching q l = l.filter (recipe_matches q) := by
  induction l with
  | nil => rfl
  | cons r t ih =>
    by_cases h1 : isSubL q (pyLower r.name.data) = true
    · simp [collect_matching, recipe_matches, h1, ih, List.filter_cons]
    · by_cases h2 : (r.ingredients.any fun ing => isSubL q (pyLower ing.name.data)) = true
      · simp [collect_matching, recipe_matches, h1, h2, ih, List.filter_cons]
      · simp [collect_matching, recipe_matches, h1, h2, ih, List.filter_cons]

theorem isSubL_nil_left (h : List Char) : isSubL [] h = true := by
  cases h <;> simp [isSubL, isPrefixHere, List.isEmpty]

theorem recipe_matches_nil (r : Recipe) : recipe_matches [] r = true := by
  simp [recipe_matches, isSubL_nil_left]

/-! ## Membership in each recipe operation -/

theorem mem_search_recipes {s : Settings} {db : List Recipe} {q : String}
    {d g c : Bool} {limit : Int} {r : Recipe}
    (h : r ∈ search_recipes s db q d g c limit) :
    r ∈ filter_by_diagnosis s (collect_matching (pyStrip (pyLower q.data)) db) d g c :=
  pyTake_subset _ _ h

theorem mem_get_all_recipes {s : Settings} {db : List Recipe} {d g c : Bool}
    {cat : Option String} {limit : Int} {r : Recipe}
    (h : r ∈ get_all_recipes s db d g c cat limit) :
    keeps_diagnosis s d g c r = true := by
  unfold get_all_recipes at h
  exact (mem_filter_by_diagnosis.mp (pyTake_subset _ _ h)).2

theorem mem_get_recipes_by_category {s : Settings} {db : List Recipe}
    {cat : String} {d g c : Bool} {r : Recipe}
    (h : r ∈ get_recipes_by_category s db cat d g c) :
    keeps_diagnosis s d g c r = true :=
  (mem_filter_by_diagnosis.mp h).2

theorem mem_get_random_recipe {s : Settings} {db : List Recipe} {d g c : Bool}
    {pick : Nat} {r : Recipe} (h : get_random_recipe s db d g c pick = some r) :
    keeps_diagnosis s d g c r = true := by
  simp only [get_random_recipe] at h
  split at h
  · exact absurd h (by simp)
  · exact (mem_filter_by_diagnosis.mp (List.getElem?_mem h)).2

/-! ## Claims C1, C3, C4 -/

/-- Claim C1: for every recipe list and flag combination, every recipe
returned by the diagnosis filter — and hence by search, get-all, category
listing and random selection — satisfies all active constraints: under
diabetes its `glycemic_index` is at most `max_glycemic_index` (default 55),
under gout its `purines` are at most 100, under celiac `suitable_for_celiac`
holds; inactive flags impose no constraint (with no flag active the filter
returns the list unchanged). -/
theorem claim_c1_diagnosis_filter_enforces_constraints
    (s : Settings) (db : List Recipe) (q : String) (cat : String)
    (catOpt : Option String) (d g c : Bool) (lim lim2 : Int) (pick : Nat)
    (r : Recipe)
    (h : r ∈ filter_by_diagnosis s db d g c ∨
         r ∈ search_recipes s db q d g c lim ∨
         r ∈ get_all_recipes s db d g c catOpt lim2 ∨
         r ∈ get_recipes_by_category s db cat d g c ∨
         get_random_recipe s db d g c pick = some r) :
    ((d = true → r.glycemic_index ≤ s.max_glycemic_index) ∧
        (g = true → r.purines ≤ 100) ∧
        (c = true → r.suitable_for_celiac = true)) ∧
      filter_by_diagnosis s db false false false = db ∧
      settings.max_glycemic_index = 55 := by
  refine ⟨?_, ?_, rfl⟩
  · have hk : keeps_diagnosis s d g c r = true := by
      rcases h with h | h | h | h | h
      · exact (mem_filter_by_diagnosis.mp h).2
      · exact (mem_filter_by_diagnosis.mp (mem_search_recipes h)).2
      · exact mem_get_all_recipes h
      · exact mem_get_recipes_by_category h
      · exact mem_get_random_recipe h
    exact keeps_diagnosis_spec hk
  · rw [filter_by_diagnosis_eq_filter]
    exact List.filter_eq_self.mpr fun a _ => by simp [keeps_diagnosis]

/-- Witness for C1 at a concrete input: recipe `r_002` survives the filter of
the embedded catalog with all three flags active, and the theorem yields its
constraints. -/
theorem claim_c1_witness :
    (r_002 ∈ filter_by_diagnosis settings RECIPES_DATABASE true true true ∨
        r_002 ∈ search_recipes settings RECIPES_DATABASE "" true true true 10 ∨
        r_002 ∈ get_all_recipes settings RECIPES_DATABASE true true true none 20 ∨
        r_002 ∈ get_recipes_by_category settings RECIPES_DATABASE "salad" true true true ∨
        get_random_recipe settings RECIPES_DATABASE true true true 0 = some r_002) ∧
      ((true = true → r_002.glycemic_index ≤ settings.max_glycemic_index) ∧
          (true = true → r_002.purines ≤ 100) ∧
          (true = true → r_002.suitable_for_celiac = true)) ∧
        filter_by_diagnosis settings RECIPES_DATABASE false false false =
          RECIPES_DATABASE ∧
        settings.max_glycemic_index = 55 :=
  ⟨Or.inl (by decide),
    claim_c1_diagnosis_filter_enforces_constraints settings RECIPES_DATABASE ""
      "salad" none true true true 10 20 0 r_002 (Or.inl (by decide))⟩

/-- Claim C3: diagnosis filtering is monotonic — for every recipe list and
every flag set, activating one additional diagnosis flag yields a subset of
the result without that flag. -/
theorem claim_c3_diagnosis_filter_monotone (s : Settings) (db : List Recipe)
    (d g c : Bool) :
    (∀ r ∈ filter_by_diagnosis s db true g c, r ∈ filter_by_diagnosis s db false g c) ∧
      (∀ r ∈ filter_by_diagnosis s db d true c, r ∈ filter_by_diagnosis s db d false c) ∧
      (∀ r ∈ filter_by_diagnosis s db d g true, r ∈ filter_by_diagnosis s db d g false) := by
  refine ⟨fun r h => ?_, fun r h => ?_, fun r h => ?_⟩
  · obtain ⟨hm, hk⟩ := mem_filter_by_diagnosis.mp h
    exact mem_filter_by_diagnosis.mpr
      ⟨hm, keeps_diagnosis_of_flag_le (fun _ => rfl) id id hk⟩
  · obtain ⟨hm, hk⟩ := mem_filter_by_diagnosis.mp h
    exact mem_filter_by_diagnosis.mpr
      ⟨hm, keeps_diagnosis_of_flag_le id (fun _ => rfl) id hk⟩
  · obtain ⟨hm, hk⟩ := mem_filter_by_diagnosis.mp h
    exact mem_filter_by_diagnosis.mpr
      ⟨hm, keeps_diagnosis_of_flag_le id id (fun _ => rfl) hk⟩

/-- Claim C4: `search_recipes` returns exactly the first `limit` recipes, in
catalog order, among those matched by the trimmed lowercased query (substring
of the lowercased name or of some lowercased ingredient name), after the
diagnosis filter; a query that normalizes to the empty string matches every
recipe, so the result is the first `limit` diagnosis-filtered recipes of the
whole catalog. -/
theorem claim_c4_search_is_filtered_prefix (s : Settings) (db : List Recipe)
    (q : String) (d g c : Bool) (lim : Int) :
    search_recipes s db q d g c lim =
        pyTake lim (filter_by_diagnosis s
          (db.filter (recipe_matches (pyStrip (pyLower q.data)))) d g c) ∧
      (pyStrip (pyLower q.data) = [] →
        search_recipes s db q d g c lim =
          pyTake lim (filter_by_diagnosis s db d g c)) := by
  constructor
  · simp only [search_recipes, collect_matching_eq_filter]
  · intro hq
    simp only [search_recipes, hq, collect_matching_eq_filter]
    rw [List.filter_eq_self.mpr fun a _ => recipe_matches_nil a]

/-! ## The price-match policy (C5) -/

theorem find_exact_price_eq_find (pl : List Char) (l : List (String × Rat)) :
    find_exact_price pl l =
      (l.find? fun kv => pyLower kv.1.data == pl).map Prod.snd := by
  induction l with
  | nil => rfl
  | cons kv t ih =>
    obtain ⟨name, price⟩ := kv
    by_cases h : (pyLower name.data == pl) = true
    · simp [find_exact_price, List.find?_cons, h]
    · simp [find_exact_price, List.find?_cons, h, ih]

theorem find_partial_price_eq_find (pl : List Char) (l : List (String × Rat)) :
    find_partial_price pl l =
      (l.find? fun kv =>
        isSubL pl (pyLower kv.1.data) || isSubL (pyLower kv.1.data) pl).map
        Prod.snd := by
  induction l with
  | nil => rfl
  | cons kv t ih =>
    obtain ⟨name, price⟩ := kv
    by_cases h : (isSubL pl (pyLower name.data) || isSubL (pyLower name.data) pl) = true
    · simp [find_partial_price, List.find?_cons, h]
    · simp [find_partial_price, List.find?_cons, h, ih]

/-- Claim C5: the per-shop price lookup is exactly: first the (price of the)
first case-insensitively exactly matching key; failing that, the first key
matching case-insensitively as a substring in either direction, in table
iteration order; failing that, `none` — never zero.  (`Option.or` prefers its
first operand, so the exact-match pass takes precedence.) -/
theorem claim_c5_price_match_policy (shop_prices : List (String × Rat))
    (product_name : String) :
    find_product_price shop_prices product_name =
        ((shop_prices.find? fun kv =>
            pyLower kv.1.data == pyLower product_name.data).map Prod.snd).or
          ((shop_prices.find? fun kv =>
            isSubL (pyLower product_name.data) (pyLower kv.1.data) ||
              isSubL (pyLower kv.1.data) (pyLower product_name.data)).map
            Prod.snd) ∧
      (find_product_price shop_prices product_name = none ↔
        ∀ kv ∈ shop_prices,
          ¬pyLower kv.1.data = pyLower product_name.data ∧
            ¬(isSubL (pyLower product_name.data) (pyLower kv.1.data) = true ∨
              isSubL (pyLower kv.1.data) (pyLower product_name.data) = true)) := by
  have heq :
      find_product_price shop_prices product_name =
        ((shop_prices.find? fun kv =>
            pyLower kv.1.data == pyLower product_name.data).map Prod.snd).or
          ((shop_prices.find? fun kv =>
            isSubL (pyLower product_name.data) (pyLower kv.1.data) ||
              isSubL (pyLower kv.1.data) (pyLower product_name.data)).map
            Prod.snd) := by
    simp only [find_product_price, find_exact_price_eq_find,
      find_partial_price_eq_find]
    cases h : shop_prices.find? fun kv =>
        pyLower kv.1.data == pyLower product_name.data <;>
      simp [h, Option.or]
  refine ⟨heq, ?_⟩
  rw [heq, Option.or_eq_none, Option.map_eq_none', Option.map_eq_none',
    List.find?_eq_none, List.find?_eq_none]
  constructor
  · intro ⟨h1, h2⟩ kv hkv
    exact ⟨by simpa using h1 kv hkv, by simpa using h2 kv hkv⟩
  · intro hall
    exact ⟨fun kv hkv => by simpa using (hall kv hkv).1,
      fun kv hkv => by simpa using (hall kv hkv).2⟩

/-! ## Cheapest-shop selection (C2) -/

theorem pyMinBy_isSome (key : α → WithTop Rat) (l : List α) (h : l ≠ []) :
    ∃ m, pyMinBy key l = some m := by
  cases l with
  | nil => exact absurd rfl h
  | cons x xs =>
    cases hxs : pyMinBy key xs with
    | none => exact ⟨x, by simp [pyMinBy, hxs]⟩
    | some m =>
      by_cases hle : key x ≤ key m
      · exact ⟨x, by simp [pyMinBy, hxs, hle]⟩
      · exact ⟨m, by simp [pyMinBy, hxs, hle]⟩

theorem pyMinBy_mem (key : α → WithTop Rat) {l : List α} {m : α}
    (h : pyMinBy key l = some m) : m ∈ l := by
  induction l with
  | nil => cases h
  | cons x xs ih =>
    cases hxs : pyMinBy key xs with
    | none =>
      simp only [pyMinBy, hxs] at h
      cases h
      exact List.mem_cons_self _ _
    | some m' =>
      simp only [pyMinBy, hxs] at h
      by_cases hle : key x ≤ key m'
      · rw [if_pos hle] at h; cases h; exact List.mem_cons_self _ _
      · rw [if_neg hle] at h; cases h; exact List.mem_cons_of_mem _ (ih hxs)

theorem pyMinBy_le (key : α → WithTop Rat) :
    ∀ {l : List α} {m : α}, pyMinBy key l = some m → ∀ y ∈ l, key m ≤ key y := by
  intro l
  induction l with
  | nil => intro m h; cases h
  | cons x xs ih =>
    intro m h y hy
    cases hxs : pyMinBy key xs with
    | none =>
      simp only [pyMinBy, hxs] at h
      cases h
      cases xs with
      | nil =>
        rcases List.mem_singleton.mp hy with rfl
        exact le_refl _
      | cons z zs =>
        obtain ⟨w, hw⟩ := pyMinBy_isSome key (z :: zs) (by simp)
        rw [hw] at hxs
        cases hxs
    | some m' =>
      simp only [pyMinBy, hxs] at h
      rcases List.mem_cons.mp hy with h_eq | hy'
      · subst h_eq
        by_cases hle : key y ≤ key m'
        · rw [if_pos hle] at h; cases h; exact le_refl _
        · rw [if_neg hle] at h; cases h; exact le_of_not_le hle
      · by_cases hle : key x ≤ key m'
        · rw [if_pos hle] at h; cases h; exact le_trans hle (ih hxs y hy')
        · rw [if_neg hle] at h; cases h; exact ih hxs y hy'

/-- Counterexample to Claim C2 as stated: for an ingredient priced in no
shop, every shop's `total_price` is 0, yet `find_cheapest_shop_for_recipe`
does not return "empty" — Python's `min` over all-infinite keys returns the
first dictionary entry, so the first shop (`shop_001`, total 0) is selected,
contradicting both "a shop whose total_price is 0 is never selected" and
"the result is empty". -/
theorem claim_c2_counterexample :
    find_cheapest_shop_for_recipe MOCK_SHOPS MOCK_PRICES
        [{ name := "бумага", amount := 1, unit := "шт" }] =
      some ("shop_001",
        { shop_name := "Пятёрочка"
          shop_address := "Москва, Красная площадь, 1"
          total_price := 0
          found_items := 0
          total_items := 1
          items := []
          rating := 4.7 }) := by decide

/-- Claim C2 as amended: whenever at least one shop prices some part of the
list (`total_price > 0`), `find_cheapest_shop_for_recipe` returns a shop with
positive total that is minimal among the shops with positive totals — a shop
with `total_price = 0` is never selected then.  (When every shop's total is 0
the function instead returns the first shop's zero-total entry, per the
counterexample.) -/
theorem claim_c2_cheapest_among_positive (shops_db : List Shop)
    (prices_db : List (String × List (String × Rat)))
    (recipe_ingredients : List Ingredient)
    (h : ∃ p ∈ get_prices_for_recipe shops_db prices_db recipe_ingredients,
      0 < p.2.total_price) :
    ∃ e, find_cheapest_shop_for_recipe shops_db prices_db recipe_ingredients =
          some e ∧
        e ∈ get_prices_for_recipe shops_db prices_db recipe_ingredients ∧
        0 < e.2.total_price ∧
        ∀ p ∈ get_prices_for_recipe shops_db prices_db recipe_ingredients,
          0 < p.2.total_price → e.2.total_price ≤ p.2.total_price := by
  obtain ⟨p, hp, hpos⟩ := h
  have hne : get_prices_for_recipe shops_db prices_db recipe_ingredients ≠ [] := by
    intro he; rw [he] at hp; cases hp
  obtain ⟨m, hm⟩ := pyMinBy_isSome cheapest_key _ hne
  have hmem := pyMinBy_mem cheapest_key hm
  have hmin := pyMinBy_le cheapest_key hm
  have hkey_p : cheapest_key p = (p.2.total_price : WithTop Rat) := by
    simp [cheapest_key, hpos]
  have hle := hmin p hp
  rw [hkey_p] at hle
  have hmpos : 0 < m.2.total_price := by
    by_contra hneg
    rw [show cheapest_key m = ⊤ by simp [cheapest_key, hneg]] at hle
    simp at hle
  refine ⟨m, hm, hmem, hmpos, ?_⟩
  intro q hq hqpos
  have hq' := hmin q hq
  rw [show cheapest_key m = (m.2.total_price : WithTop Rat) by
      simp [cheapest_key, hmpos],
    show cheapest_key q = (q.2.total_price : WithTop Rat) by
      simp [cheapest_key, hqpos]] at hq'
  exact_mod_cast hq'

/-- Witness for (amended) C2 at a concrete input: buckwheat groats are priced
in every shop, and the minimal positive total (79, at `shop_002`) is
selected. -/
theorem claim_c2_witness :
    (∃ p ∈ get_prices_for_recipe MOCK_SHOPS MOCK_PRICES
        [{ name := "Гречневая крупа", amount := 150, unit := "г" }],
        0 < p.2.total_price) ∧
      ∃ e, find_cheapest_shop_for_recipe MOCK_SHOPS MOCK_PRICES
            [{ name := "Гречневая крупа", amount := 150, unit := "г" }] =
            some e ∧
          e ∈ get_prices_for_recipe MOCK_SHOPS MOCK_PRICES
            [{ name := "Гречневая крупа", amount := 150, unit := "г" }] ∧
          0 < e.2.total_price ∧
          ∀ p ∈ get_prices_for_recipe MOCK_SHOPS MOCK_PRICES
            [{ name := "Гречневая крупа", amount := 150, unit := "г" }],
            0 < p.2.total_price → e.2.total_price ≤ p.2.total_price :=
  ⟨by decide, claim_c2_cheapest_among_positive MOCK_SHOPS MOCK_PRICES
    [{ name := "Гречневая крупа", amount := 150, unit := "г" }] (by decide)⟩

/-! ## Price comparison (C7) -/

theorem length_filterMap_eq_length_filter (f : α → Option β) (l : List α) :
    (l.filterMap f).length = (l.filter fun a => (f a).isSome).length := by
  induction l with
  | nil => rfl
  | cons a t ih =>
    cases hfa : f a with
    | none => simp [List.filterMap_cons, List.filter_cons, hfa, ih]
    | some b => simp [List.filterMap_cons, List.filter_cons, hfa, ih]

/-- Claim C7: `compare_prices` returns one entry per shop stocking the
product under the price-match policy (shops with no match are excluded),
sorted ascending by price; and on the embedded sample catalog
`compare_prices "Гречневая крупа"` returns all 5 shops sorted ascending with
the cheapest being `Магнит` at 79. -/
theorem claim_c7_compare_prices :
    (∀ (shops_db : List Shop) (prices_db : List (String × List (String × Rat)))
        (product_name : String),
      (compare_prices shops_db prices_db product_name).Pairwise
          (fun a b => a.price ≤ b.price) ∧
        (compare_prices shops_db prices_db product_name).length =
          (shops_db.filter fun shop =>
            (find_product_price (dict_get prices_db shop.id)
              product_name).isSome).length ∧
        ∀ e ∈ compare_prices shops_db prices_db product_name,
          ∃ shop ∈ shops_db,
            e.shop_id = shop.id ∧ e.shop_name = shop.name ∧
              e.shop_address = shop.address ∧ e.rating = shop.rating ∧
              find_product_price (dict_get prices_db shop.id) product_name =
                some e.price) ∧
      compare_prices MOCK_SHOPS MOCK_PRICES "Гречневая крупа" =
        [{ shop_id := "shop_002", shop_name := "Магнит",
           shop_address := "Москва, ул. Тверская, 15", price := 79, rating := 4.5 },
         { shop_id := "shop_003", shop_name := "Дикси",
           shop_address := "Москва, Охотный ряд, 2", price := 85, rating := 4.3 },
         { shop_id := "shop_001", shop_name := "Пятёрочка",
           shop_address := "Москва, Красная площадь, 1", price := 89, rating := 4.7 },
         { shop_id := "shop_005", shop_name := "Перекрёсток",
           shop_address := "Москва, ул. Петровка, 5", price := 95, rating := 4.6 },
         { shop_id := "shop_004", shop_name := "ВкусВилл",
           shop_address := "Москва, ул. Никольская, 10", price := 99, rating := 4.8 }] := by
  constructor
  · intro shops_db prices_db product_name
    haveI : IsTotal PriceEntry (fun a b => a.price ≤ b.price) :=
      ⟨fun a b => le_total a.price b.price⟩
    haveI : IsTrans PriceEntry (fun a b => a.price ≤ b.price) :=
      ⟨fun _ _ _ hab hbc => le_trans hab hbc⟩
    refine ⟨List.sorted_insertionSort _ _, ?_, ?_⟩
    · simp only [compare_prices, List.length_insertionSort]
      rw [length_filterMap_eq_length_filter]
      congr 1
      refine List.filter_congr fun shop _ => ?_
      cases find_product_price (dict_get prices_db shop.id) product_name <;> simp
    · intro e he
      simp only [compare_prices, List.mem_insertionSort] at he
      obtain ⟨shop, hshop, hsome⟩ := List.mem_filterMap.mp he
      cases hf : find_product_price (dict_get prices_db shop.id) product_name with
      | none => rw [hf] at hsome; cases hsome
      | some price =>
        rw [hf] at hsome
        cases hsome
        exact ⟨shop, hshop, rfl, rfl, rfl, rfl, hf⟩
  · decide

/-! ## Nearby-shop ranking (C6) -/

theorem pairwise_filterMap_of_pairwise {f : α → Option β} {R : α → α → Prop}
    {S : β → β → Prop}
    (hf : ∀ a a' b b', f a = some b → f a' = some b' → R a a' → S b b') :
    ∀ {l : List α}, l.Pairwise R → (l.filterMap f).Pairwise S := by
  intro l hl
  induction hl with
  | nil => simp
  | @cons a t hhead _ ih =>
    cases hfa : f a with
    | none => simpa [List.filterMap_cons, hfa] using ih
    | some b =>
      rw [List.filterMap_cons, hfa]
      refine List.Pairwise.cons (fun b' hb' => ?_) ih
      obtain ⟨a', ha', hfa'⟩ := List.mem_filterMap.mp hb'
      exact hf a a' b b' hfa hfa' (hhead a' ha')


theorem pairwise_stable_orderedInsert (key : α → Rat) (R : α → α → Prop)
    (x : α) (l : List α) (hl : l.Pairwise (stableKeyRel key R))
    (hx : ∀ y ∈ l, R x y) :
    (l.orderedInsert (fun a b => key a ≤ key b) x).Pairwise
      (stableKeyRel key R) := by
  induction l with
  | nil => simp [stableKeyRel]
  | cons b t ih =>
    obtain ⟨hhead, htail⟩ := List.pairwise_cons.mp hl
    rw [List.orderedInsert]
    by_cases hbx : key x ≤ key b
    · rw [if_pos hbx]
      refine List.Pairwise.cons (fun z hz => ?_) hl
      rcases List.mem_cons.mp hz with h_eq | hz'
      · subst h_eq
        rcases lt_or_eq_of_le hbx with hlt | heq
        · exact Or.inl hlt
        · exact Or.inr ⟨heq, hx _ (List.mem_cons_self _ _)⟩
      · have hbz : key b ≤ key z := by
          rcases hhead z hz' with hlt | ⟨heq, _⟩
          · exact le_of_lt hlt
          · exact le_of_eq heq
        rcases lt_or_eq_of_le (le_trans hbx hbz) with hlt | heq
        · exact Or.inl hlt
        · exact Or.inr ⟨heq, hx _ (List.mem_cons_of_mem _ hz')⟩
    · rw [if_neg hbx]
      refine List.Pairwise.cons (fun z hz => ?_)
        (ih htail fun y hy => hx y (List.mem_cons_of_mem _ hy))
      rcases (List.mem_orderedInsert _).mp hz with h_eq | hz'
      · subst h_eq
        exact Or.inl (lt_of_not_le hbx)
      · exact hhead z hz'

theorem pairwise_stable_insertionSort (key : α → Rat) (R : α → α → Prop)
    (l : List α) (hl : l.Pairwise R) :
    (l.insertionSort fun a b => key a ≤ key b).Pairwise (stableKeyRel key R) := by
  induction l with
  | nil => simp [List.insertionSort]
  | cons x t ih =>
    obtain ⟨hhead, htail⟩ := List.pairwise_cons.mp hl
    rw [List.insertionSort]
    exact pairwise_stable_orderedInsert key R x _ (ih htail)
      fun y hy => hhead y ((List.mem_insertionSort _).mp hy)

theorem pyTake_sublist (limit : Int) (l : List α) : (pyTake limit l).Sublist l := by
  unfold pyTake
  split <;> exact List.take_sublist _ _

theorem pyTake_length_le (limit : Int) (l : List α) (h : 0 ≤ limit) :
    (pyTake limit l).length = min limit.toNat l.length := by
  rw [pyTake, if_pos h, List.length_take]

/-- Claim C6: for every distance oracle (in particular the Haversine
distance), rounding, coordinates, radius and limit, `find_nearby_shops`
returns only shops whose (unrounded) distance is at most `radius_km`, sorted
ascending by the reported rounded `distance_km` with ties broken by catalog
order (for any relation `R` holding along the catalog order, equal reported
distances still satisfy `R`), and truncated to `limit` entries. -/
theorem claim_c6_find_nearby_shops (dist : Rat → Rat → Rat → Rat → Rat)
    (round2 : Rat → Rat) (shops_db : List Shop) (latitude longitude radius_km : Rat)
    (lim : Int) (R : Shop → Shop → Prop) (hR : shops_db.Pairwise R) :
    (∀ p ∈ find_nearby_shops dist round2 shops_db latitude longitude radius_km lim,
        dist latitude longitude p.1.latitude p.1.longitude ≤ radius_km) ∧
      (find_nearby_shops dist round2 shops_db latitude longitude radius_km lim).Pairwise
        (fun a b => a.2 ≤ b.2) ∧
      (find_nearby_shops dist round2 shops_db latitude longitude radius_km lim).Pairwise
        (fun a b => a.2 < b.2 ∨ (a.2 = b.2 ∧ R a.1 b.1)) ∧
      (0 ≤ lim →
        (find_nearby_shops dist round2 shops_db latitude longitude radius_km lim).length =
          min lim.toNat
            (shops_db.filter fun shop =>
              decide (dist latitude longitude shop.latitude shop.longitude ≤
                radius_km)).length) := by
  have hpair :
      (find_nearby_shops dist round2 shops_db latitude longitude radius_km lim).Pairwise
        (stableKeyRel (fun p : Shop × Rat => p.2) fun a b => R a.1 b.1) := by
    simp only [find_nearby_shops]
    refine List.Pairwise.sublist (pyTake_sublist _ _) ?_
    refine pairwise_stable_insertionSort _ _ _ ?_
    refine pairwise_filterMap_of_pairwise (R := R) ?_ hR
    intro a a' b b' hb hb' hR'
    have hb1 : b.1 = a := by
      by_cases hd : dist latitude longitude a.latitude a.longitude ≤ radius_km
      · rw [if_pos hd] at hb; cases hb; rfl
      · rw [if_neg hd] at hb; cases hb
    have hb1' : b'.1 = a' := by
      by_cases hd : dist latitude longitude a'.latitude a'.longitude ≤ radius_km
      · rw [if_pos hd] at hb'; cases hb'; rfl
      · rw [if_neg hd] at hb'; cases hb'
    rw [hb1, hb1']
    exact hR'
  refine ⟨?_, ?_, hpair, ?_⟩
  · intro p hp
    simp only [find_nearby_shops] at hp
    have hp' := (List.mem_insertionSort _).mp ((pyTake_sublist lim _).subset hp)
    obtain ⟨shop, _, hsome⟩ := List.mem_filterMap.mp hp'
    by_cases hd : dist latitude longitude shop.latitude shop.longitude ≤ radius_km
    · simp only [if_pos hd] at hsome
      cases hsome
      exact hd
    · simp only [if_neg hd] at hsome
      cases hsome
  · refine hpair.imp fun hab => ?_
    rcases hab with hlt | ⟨heq, _⟩
    · exact le_of_lt hlt
    · exact le_of_eq heq
  · intro hlim
    simp only [find_nearby_shops]
    rw [pyTake_length_le _ _ hlim, List.length_insertionSort,
      length_filterMap_eq_length_filter]
    congr 2
    refine List.filter_congr fun shop _ => ?_
    by_cases hd : dist latitude longitude shop.latitude shop.longitude ≤ radius_km <;>
      simp [hd]

/-- Witness for C6 at a concrete input: a constant-free rational oracle over
the embedded shop catalog, radius 2 km, limit 3. -/
theorem claim_c6_witness :
    MOCK_SHOPS.Pairwise (fun a b : Shop => a.id ≠ b.id) ∧
      ∀ p ∈ find_nearby_shops (fun _ _ la lo => la + lo - 93) id MOCK_SHOPS
          55.75 37.62 2 3,
        (fun _ _ la lo => la + lo - (93 : Rat)) 55.75 37.62 p.1.latitude
            p.1.longitude ≤ 2 :=
  ⟨by decide,
    (claim_c6_find_nearby_shops (fun _ _ la lo => la + lo - 93) id MOCK_SHOPS
      55.75 37.62 2 3 (fun a b => a.id ≠ b.id) (by decide)).1⟩

/-! ## Argument validation (C8) -/

/-- Counterexample to Claim C8 as stated: `search_recipes` performs no
validation at all — called with the negative limit `-1` it does not signal
any `InvalidArgument` error but returns a normal result, namely the Python
slice `filtered[:-1]`: for the query `"курица"` the single match `r_001`
loses its last element and the empty list is returned. -/
theorem claim_c8_counterexample :
    search_recipes settings RECIPES_DATABASE "курица" false false false (-1) =
      [] := by decide

/-- Claim C8 as amended: no validation is performed and no error is ever
signalled.  A negative limit is interpreted by Python slice semantics —
`limit = -(k+1)` drops the last `k+1` elements of the filtered match list —
and coordinates that put every shop out of range (as non-finite coordinates
do) make `find_nearby_shops` return the normal empty list; an empty result is
never escalated to an error. -/
theorem claim_c8_no_validation_slice_semantics (s : Settings)
    (db : List Recipe) (q : String) (d g c : Bool) (k : Nat)
    (dist : Rat → Rat → Rat → Rat → Rat) (round2 : Rat → Rat)
    (shops_db : List Shop) (latitude longitude radius_km : Rat) (lim : Int) :
    search_recipes s db q d g c (-(k + 1 : Nat)) =
        (filter_by_diagnosis s
            (collect_matching (pyStrip (pyLower q.data)) db) d g c).take
          ((filter_by_diagnosis s
            (collect_matching (pyStrip (pyLower q.data)) db) d g c).length -
            (k + 1)) ∧
      ((∀ shop ∈ shops_db,
          ¬dist latitude longitude shop.latitude shop.longitude ≤ radius_km) →
        find_nearby_shops dist round2 shops_db latitude longitude radius_km lim =
          []) := by
  constructor
  · simp only [search_recipes, pyTake]
    rw [if_neg (by omega)]
    congr 1
    omega
  · intro hfar
    simp only [find_nearby_shops]
    rw [List.filterMap_eq_nil_iff.mpr fun shop hshop => by
      simp only [if_neg (hfar shop hshop)]]
    simp [pyTake]

/-! ## The Haversine distance (C9) -/

theorem radians_sub_neg (u v : Real) : radians (u - v) = -radians (v - u) := by
  unfold radians; ring

theorem sin_sq_radians_sub_comm (u v : Real) :
    Real.sin (radians (u - v) / 2) ^ 2 = Real.sin (radians (v - u) / 2) ^ 2 := by
  rw [radians_sub_neg, neg_div, Real.sin_neg, neg_sq]

theorem haversine_a_comm (lat1 lon1 lat2 lon2 : Real) :
    haversine_a lat1 lon1 lat2 lon2 = haversine_a lat2 lon2 lat1 lon1 := by
  unfold haversine_a
  rw [sin_sq_radians_sub_comm lat2 lat1, sin_sq_radians_sub_comm lon2 lon1,
    mul_comm (Real.cos (radians lat1)) (Real.cos (radians lat2))]

theorem haversine_a_self (lat lon : Real) : haversine_a lat lon lat lon = 0 := by
  simp [haversine_a, radians]

/-- Claim C9: the Haversine distance is symmetric in its two coordinate
points, and the distance from any point to itself is exactly 0. -/
theorem claim_c9_haversine_symm_self_zero (lat1 lon1 lat2 lon2 : Real) :
    calculate_haversine_distance lat1 lon1 lat2 lon2 =
        calculate_haversine_distance lat2 lon2 lat1 lon1 ∧
      calculate_haversine_distance lat1 lon1 lat1 lon1 = 0 := by
  constructor
  · unfold calculate_haversine_distance
    rw [haversine_a_comm]
  · unfold calculate_haversine_distance
    rw [haversine_a_self, Real.sqrt_zero, sub_zero, Real.sqrt_one]
    unfold atan2
    rw [show (⟨1, 0⟩ : Complex) = 1 from Complex.ext (by simp) (by simp),
      Complex.arg_one]
    ring

/-! ## Noninterference of the unused suitability flags (C10) -/



theorem keeps_diagnosis_congr_view {s : Settings} {d g c : Bool} {r r' : Recipe}
    (h : erase_suitability r = erase_suitability r') :
    keeps_diagnosis s d g c r = keeps_diagnosis s d g c r' := by
  have h1 : r.glycemic_index = r'.glycemic_index :=
    congrArg RecipeView.glycemic_index h
  have h2 : r.purines = r'.purines := congrArg RecipeView.purines h
  have h3 : r.suitable_for_celiac = r'.suitable_for_celiac :=
    congrArg RecipeView.suitable_for_celiac h
  simp only [keeps_diagnosis, h1, h2, h3]

theorem recipe_matches_congr_view {q : List Char} {r r' : Recipe}
    (h : erase_suitability r = erase_suitability r') :
    recipe_matches q r = recipe_matches q r' := by
  have h1 : r.name = r'.name := congrArg RecipeView.name h
  have h2 : r.ingredients = r'.ingredients :=
    congrArg RecipeView.ingredients h
  simp only [recipe_matches, h1, h2]

theorem category_beq_congr_view {cat : String} {r r' : Recipe}
    (h : erase_suitability r = erase_suitability r') :
    (r.category == cat) = (r'.category == cat) := by
  have h1 : r.category = r'.category := congrArg RecipeView.category h
  rw [h1]

theorem filter_congr_view {p : Recipe → Bool}
    (hp : ∀ r r', erase_suitability r = erase_suitability r' → p r = p r') :
    ∀ {l l' : List Recipe}, l.map erase_suitability = l'.map erase_suitability →
      (l.filter p).map erase_suitability = (l'.filter p).map erase_suitability := by
  intro l
  induction l with
  | nil =>
    intro l' h
    cases l' with
    | nil => rfl
    | cons b t' => cases h
  | cons a t ih =>
    intro l' h
    cases l' with
    | nil => cases h
    | cons b t' =>
      simp only [List.map_cons, List.cons.injEq] at h
      obtain ⟨hab, ht⟩ := h
      rw [List.filter_cons, List.filter_cons, hp a b hab]
      by_cases hb : p b = true
      · rw [if_pos hb, if_pos hb, List.map_cons, List.map_cons, hab, ih ht]
      · rw [if_neg hb, if_neg hb, ih ht]

theorem pyTake_map (f : α → β) (lim : Int) (l : List α) :
    (pyTake lim l).map f = pyTake lim (l.map f) := by
  unfold pyTake
  rw [List.length_map]
  split <;> rw [List.map_take]

/-- Claim C10: the diagnosis-filtering pipeline is independent of the
recipes' `suitable_for_diabetes` and `suitable_for_gout` fields — for any two
catalogs identical up to those two fields, the filter and every operation
built on it (search, get-all, by-category, random choice) make identical
keep/drop decisions under every flag combination; and concretely, `r_007`
(`suitable_for_diabetes = true` but `glycemic_index = 65`) is still excluded
when the diabetes flag is active, because only `glycemic_index`, `purines`
and `suitable_for_celiac` are ever consulted. -/
theorem claim_c10_filter_ignores_suitability_flags (s : Settings)
    (d g c : Bool) (R R' : List Recipe)
    (h : R.map erase_suitability = R'.map erase_suitability) :
    (filter_by_diagnosis s R d g c).map erase_suitability =
        (filter_by_diagnosis s R' d g c).map erase_suitability ∧
      (∀ (q : String) (lim : Int),
        (search_recipes s R q d g c lim).map erase_suitability =
          (search_recipes s R' q d g c lim).map erase_suitability) ∧
      (∀ cat : String,
        (get_recipes_by_category s R cat d g c).map erase_suitability =
          (get_recipes_by_category s R' cat d g c).map erase_suitability) ∧
      (∀ (catOpt : Option String) (lim : Int),
        (get_all_recipes s R d g c catOpt lim).map erase_suitability =
          (get_all_recipes s R' d g c catOpt lim).map erase_suitability) ∧
      (∀ pick : Nat,
        (get_random_recipe s R d g c pick).map erase_suitability =
          (get_random_recipe s R' d g c pick).map erase_suitability) ∧
      filter_by_diagnosis settings [r_007] true false false = [] ∧
      r_007.suitable_for_diabetes = true := by
  have hfilter : ∀ {l l' : List Recipe},
      l.map erase_suitability = l'.map erase_suitability →
      (filter_by_diagnosis s l d g c).map erase_suitability =
        (filter_by_diagnosis s l' d g c).map erase_suitability := by
    intro l l' hl
    rw [filter_by_diagnosis_eq_filter, filter_by_diagnosis_eq_filter]
    exact filter_congr_view (fun r r' hr => keeps_diagnosis_congr_view hr) hl
  refine ⟨hfilter h, ?_, ?_, ?_, ?_, by decide, by decide⟩
  · intro q lim
    simp only [search_recipes, collect_matching_eq_filter]
    rw [pyTake_map, pyTake_map]
    rw [hfilter (filter_congr_view
      (fun r r' hr => recipe_matches_congr_view hr) h)]
  · intro cat
    exact hfilter (filter_congr_view
      (fun r r' hr => category_beq_congr_view hr) h)
  · intro catOpt lim
    cases catOpt with
    | none =>
      simp only [get_all_recipes]
      rw [pyTake_map, pyTake_map, hfilter h]
    | some cat =>
      simp only [get_all_recipes]
      by_cases hcat : cat.isEmpty = true
      · rw [if_pos hcat, if_pos hcat, pyTake_map, pyTake_map, hfilter h]
      · rw [if_neg hcat, if_neg hcat, pyTake_map, pyTake_map,
          hfilter (filter_congr_view
            (fun r r' hr => category_beq_congr_view hr) h)]
  · intro pick
    have hf := hfilter h
    have hlen : (filter_by_diagnosis s R d g c).length =
        (filter_by_diagnosis s R' d g c).length := by
      have := congrArg List.length hf
      simpa using this
    simp only [get_random_recipe]
    by_cases he : (filter_by_diagnosis s R d g c).isEmpty
    · have he' : (filter_by_diagnosis s R' d g c).isEmpty = true := by
        rw [List.isEmpty_iff_length_eq_zero] at he ⊢
        omega
      simp [he, he']
    · have he' : ¬(filter_by_diagnosis s R' d g c).isEmpty = true := by
        rw [List.isEmpty_iff_length_eq_zero] at he ⊢
        omega
      rw [if_neg he, if_neg he']
      rw [← List.getElem?_map, ← List.getElem?_map, hf, hlen]


/-- Witness for C10 at a concrete input: the catalogs `[r_007]` and
`[r_007_flipped]` agree after erasure, so the filter's keep/drop decisions
agree. -/
theorem claim_c10_witness :
    ([r_007].map erase_suitability = [r_007_flipped].map erase_suitability) ∧
      (filter_by_diagnosis settings [r_007] true false false).map
          erase_suitability =
        (filter_by_diagnosis settings [r_007_flipped] true false false).map
          erase_suitability :=
  ⟨rfl,
    (claim_c10_filter_ignores_suitability_flags settings true false false
      [r_007] [r_007_flipped] rfl).1⟩

end MedMarket
